import Mathlib

/-!
Verification of the resolution framework reconciler
(pkg/resolver/framework/reconciler.go).

The Go code is shallowly embedded: bytes are `Nat` values below 256,
Go maps become association lists, control-plane RPCs are oracles held
in a `ControlPlane` record, and the one-shot select between the worker
channels and the resolution-context deadline is a `SelectArm` value
chosen by the scheduler.  Each embedded function also returns the trace
of control-plane and resolver operations it performs, so that claims of
the form "no status write occurs" are statable.
-/

namespace Resolution

/-! ## Base64, standard alphabet, strict mode

Embeds Go `encoding/base64` `StdEncoding.Strict()`: encoding groups the
input three bytes at a time into four 6-bit values, padding with `=`;
strict decoding rejects non-alphabet characters, misplaced padding and
non-zero trailing padding bits. -/

/-- The value of a standard-alphabet base64 digit, `none` for any
character outside the alphabet (`=` included). -/
def b64Value (c : Char) : Option Nat :=
  if 'A' ≤ c ∧ c ≤ 'Z' then some (c.toNat - 65)
  else if 'a' ≤ c ∧ c ≤ 'z' then some (c.toNat - 97 + 26)
  else if '0' ≤ c ∧ c ≤ '9' then some (c.toNat - 48 + 52)
  else if c = '+' then some 62
  else if c = '/' then some 63
  else none

/-- The standard-alphabet digit for a 6-bit value. -/
def b64Char (n : Nat) : Char :=
  if n < 26 then Char.ofNat (65 + n)
  else if n < 52 then Char.ofNat (97 + (n - 26))
  else if n < 62 then Char.ofNat (48 + (n - 52))
  else if n = 62 then '+'
  else '/'

/-- Go `base64.StdEncoding.EncodeToString`, three input bytes per four
output characters, `=`-padded. -/
def encodeB64 : List Nat → List Char
  | b0 :: b1 :: b2 :: rest =>
      b64Char (b0 / 4) :: b64Char ((b0 % 4) * 16 + b1 / 16) ::
      b64Char ((b1 % 16) * 4 + b2 / 64) :: b64Char (b2 % 64) :: encodeB64 rest
  | [b0, b1] =>
      [b64Char (b0 / 4), b64Char ((b0 % 4) * 16 + b1 / 16), b64Char ((b1 % 16) * 4), '=']
  | [b0] =>
      [b64Char (b0 / 4), b64Char ((b0 % 4) * 16), '=', '=']
  | [] => []

/-- Go strict standard-alphabet base64 decoding: input length must be a
multiple of four, padding may only close the final quantum, and the
trailing bits covered by padding must be zero. -/
def decodeB64 : List Char → Option (List Nat)
  | c0 :: c1 :: c2 :: c3 :: rest =>
    match b64Value c0, b64Value c1 with
    | some v0, some v1 =>
      if c2 = '=' then
        if c3 = '=' ∧ rest = [] ∧ v1 % 16 = 0 then
          some [v0 * 4 + v1 / 16]
        else none
      else
        match b64Value c2 with
        | some v2 =>
          if c3 = '=' then
            if rest = [] ∧ v2 % 4 = 0 then
              some [v0 * 4 + v1 / 16, (v1 % 16) * 16 + v2 / 4]
            else none
          else
            match b64Value c3 with
            | some v3 =>
              (decodeB64 rest).map
                (fun tail =>
                  (v0 * 4 + v1 / 16) :: ((v1 % 16) * 16 + v2 / 4) ::
                  ((v2 % 4) * 64 + v3) :: tail)
            | none => none
        | none => none
    | _, _ => none
  | [] => some []
  | _ => none

/-! ## Data model -/

/-- Modelled from the spec: status of a knative-style condition
(True, False or Unknown). -/
inductive CondStatus where
  | ctrue
  | cfalse
  | cunknown
deriving DecidableEq

/-- Modelled from the spec: one entry of the status conditions list. -/
structure Condition where
  ctype : String
  status : CondStatus
  reason : String
  message : String
deriving DecidableEq

/-- Status of a ResolutionRequest: conditions, base64 data and the
annotation map (modelled as an association list). -/
structure RequestStatus where
  conditions : List Condition
  data : String
  annotationList : List (String × String)
deriving DecidableEq

/-- A ResolutionRequest record: identity, spec parameters, status. -/
structure ResolutionRequest where
  ns : String
  name : String
  parameters : List (String × String)
  status : RequestStatus
deriving DecidableEq

/-- Modelled from the spec: the done predicate on a ResolutionRequest
(from pkg/apis, not under src/) — the Succeeded condition is present and
its status is True or False. -/
def ResolutionRequest.IsDone (rr : ResolutionRequest) : Bool :=
  match rr.status.conditions.find? (fun c => c.ctype == "Succeeded") with
  | some c => c.status == CondStatus.ctrue || c.status == CondStatus.cfalse
  | none => false

/-- The value object a resolver returns: raw bytes (Nat values below
256) plus an annotation map. Embeds the ResolvedResource interface. -/
structure ResolvedResource where
  data : List Nat
  annotationList : List (String × String)
deriving DecidableEq

/-- Embeds the statusDataPatch struct of reconciler.go: the json body
PATCHed into a ResolutionRequest once resolved. -/
structure StatusDataPatch where
  annotationList : List (String × String)
  data : String
deriving DecidableEq

/-! ## Error taxonomy -/

/-- Modelled from the spec: the error kinds of the resolution common
package (pkg/common, not under src/), plus a constructor for raw
external API errors and for context cancellation causes. -/
inductive FrameworkError where
  | invalidResourceKey (key : String) (original : String)
  | gettingResource (resolverName : String) (key : String) (original : String)
  | invalidRequest (resolutionRequestKey : String) (message : String)
  | updatingRequest (resolutionRequestKey : String) (original : String)
  | deadlineExceeded
  | canceled
  | external (message : String)
  | unknown (message : String)
deriving DecidableEq

/-- Modelled from the spec: the Error() string of each error kind. -/
def errString : FrameworkError → String
  | FrameworkError.invalidResourceKey k o => "invalid resource key " ++ k ++ ": " ++ o
  | FrameworkError.gettingResource rn k o =>
      "error getting " ++ rn ++ " resource for " ++ k ++ ": " ++ o
  | FrameworkError.invalidRequest k m => "invalid resource request " ++ k ++ ": " ++ m
  | FrameworkError.updatingRequest k o => "error updating resource request " ++ k ++ ": " ++ o
  | FrameworkError.deadlineExceeded => "context deadline exceeded"
  | FrameworkError.canceled => "context canceled"
  | FrameworkError.external m => m
  | FrameworkError.unknown m => m

/-- Modelled from the spec: ReasonError of pkg/common (not under src/),
the canonical mapping from an error value to a status reason together
with a possibly normalized error. A context deadline is normalized into
a resolution-timeout error; kinds without a specific reason fall
through as ResolutionFailed with the original error. -/
def ReasonError (e : FrameworkError) : String × FrameworkError :=
  match e with
  | FrameworkError.invalidRequest _ _ => ("InvalidRequest", e)
  | FrameworkError.deadlineExceeded =>
      ("ResolutionTimedOut", FrameworkError.unknown "resolution timed out")
  | _ => ("ResolutionFailed", e)

/-- The reasons the status writer may emit (spec section 7). -/
def taxonomyReasons : List String :=
  ["ResolutionFailed", "ResolutionTimedOut", "InvalidRequest"]

/-- A Go error value as returned to the work-queue: either wrapped by
controller.NewPermanentError (whose argument may itself be nil) or a
plain retryable error. A reconcile returning nil is `Option.none` at
the call sites below. -/
inductive GoError where
  | permanent (e : Option FrameworkError)
  | plain (e : FrameworkError)
deriving DecidableEq

/-! ## Traces of effects -/

/-- The two cancellation scopes of a reconcile: the outer per-reconcile
context and the inner resolution context derived from it with the
resolution deadline. -/
inductive CtxKind where
  | outer
  | inner
deriving DecidableEq

/-- One observable operation of the reconciler: control-plane reads and
writes (tagged with the context they are issued on) and resolver
invocations. -/
inductive Op where
  | listerGet (ns name : String)
  | clientGet (ctx : CtxKind) (ns name : String)
  | updateStatus (ctx : CtxKind) (ns name : String) (c : Condition)
  | patchStatus (ctx : CtxKind) (ns name : String) (p : StatusDataPatch)
  | validateParamsCall (params : List (String × String))
  | resolveCall (params : List (String × String))
deriving DecidableEq

/-- Whether an operation mutates the record at the control plane. -/
def Op.isWrite : Op → Bool
  | Op.updateStatus _ _ _ _ => true
  | Op.patchStatus _ _ _ _ => true
  | _ => false

/-- Whether an operation is an invocation of the resolver plug-in. -/
def Op.isResolverCall : Op → Bool
  | Op.validateParamsCall _ => true
  | Op.resolveCall _ => true
  | _ => false

/-- The context a control-plane RPC is issued on, if the operation is
an RPC. -/
def Op.rpcCtx : Op → Option CtxKind
  | Op.clientGet c _ _ => some c
  | Op.updateStatus c _ _ _ => some c
  | Op.patchStatus c _ _ _ => some c
  | _ => none

/-! ## The environment -/

/-- The external collaborators of one reconcile, as oracles: the
read-through lister, the client used by MarkFailed to re-fetch, and the
outcomes of the fallible json marshal, UpdateStatus and Patch calls
(`none` meaning success, `some m` failure with message m). -/
structure ControlPlane where
  listerGet : String → String → Except String ResolutionRequest
  clientGet : String → String → Except String ResolutionRequest
  updateStatusErr : Option String
  marshalErr : Option String
  patchErr : Option String

/-- The resolver plug-in, reduced to the two operations the reconciler
consults during resolution plus its name. ValidateParams returns the
message of its error when validation fails; Resolve returns the
artifact or an error message. -/
structure Resolver where
  name : String
  validateParams : List (String × String) → Option String
  resolve : List (String × String) → Except String ResolvedResource

/-- What the worker goroutine sends: a value on errChan (Go channels of
interface type can carry nil, hence the Option) or a resource on
resourceChan. -/
inductive ChanMsg where
  | onErrChan (e : Option FrameworkError)
  | onResourceChan (res : ResolvedResource)
deriving DecidableEq

/-- Embeds the worker goroutine body of resolve (reconciler.go lines
105-124): ValidateParams first, sending ErrorInvalidRequest on failure
without calling Resolve; then Resolve, sending ErrorGettingResource on
failure or the resource on success. Returns the sent message and the
trace of resolver invocations. -/
def workerRun (resolver : Resolver) (key : String) (params : List (String × String)) :
    ChanMsg × List Op :=
  match resolver.validateParams params with
  | some msg =>
      (ChanMsg.onErrChan (some (FrameworkError.invalidRequest key msg)),
       [Op.validateParamsCall params])
  | none =>
    match resolver.resolve params with
    | Except.error e =>
        (ChanMsg.onErrChan (some (FrameworkError.gettingResource resolver.name key e)),
         [Op.validateParamsCall params, Op.resolveCall params])
    | Except.ok res =>
        (ChanMsg.onResourceChan res,
         [Op.validateParamsCall params, Op.resolveCall params])

/-! ## MarkFailed, OnError, writeResolvedData -/

/-- Embeds Reconciler.MarkFailed (reconciler.go lines 158-176):
compute (reason, normalized error) via ReasonError, re-fetch the record
from the control plane, return the fetch error on failure, return nil
if the re-fetched record is done, otherwise mark the Succeeded
condition False with reason and the normalized error message and issue
UpdateStatus, returning its error if any. Result: the returned Go
error (`none` = nil) and the trace of operations. -/
def MarkFailed (cp : ControlPlane) (ctx : CtxKind) (rr : ResolutionRequest)
    (resolutionErr : FrameworkError) : Option FrameworkError × List Op :=
  let reasonAndErr := ReasonError resolutionErr
  match cp.clientGet rr.ns rr.name with
  | Except.error e => (some (FrameworkError.external e), [Op.clientGet ctx rr.ns rr.name])
  | Except.ok latestGeneration =>
    if latestGeneration.IsDone then
      (none, [Op.clientGet ctx rr.ns rr.name])
    else
      let cond : Condition :=
        { ctype := "Succeeded", status := CondStatus.cfalse,
          reason := reasonAndErr.1, message := errString reasonAndErr.2 }
      match cp.updateStatusErr with
      | some e =>
          (some (FrameworkError.external e),
           [Op.clientGet ctx rr.ns rr.name, Op.updateStatus ctx rr.ns rr.name cond])
      | none =>
          (none,
           [Op.clientGet ctx rr.ns rr.name, Op.updateStatus ctx rr.ns rr.name cond])

/-- Embeds Reconciler.OnError (reconciler.go lines 144-153): if rr is
nil, wrap err (possibly nil) permanently; otherwise if err is non-nil,
attempt MarkFailed discarding its result and wrap err permanently;
otherwise return nil. -/
def OnError (cp : ControlPlane) (ctx : CtxKind) (rr : Option ResolutionRequest)
    (err : Option FrameworkError) : Option GoError × List Op :=
  match rr with
  | none => (some (GoError.permanent err), [])
  | some rr =>
    match err with
    | some e => (some (GoError.permanent (some e)), (MarkFailed cp ctx rr e).2)
    | none => (none, [])

/-- Embeds Reconciler.writeResolvedData (reconciler.go lines 186-209):
base64-strict-encode the resource bytes, marshal the status patch
(routing a marshal error through OnError as ErrorUpdatingRequest),
PATCH the status subresource (routing a patch error through OnError as
ErrorUpdatingRequest), and return nil on success. -/
def writeResolvedData (cp : ControlPlane) (ctx : CtxKind) (rr : ResolutionRequest)
    (resource : ResolvedResource) : Option GoError × List Op :=
  let key := rr.ns ++ "/" ++ rr.name
  let encodedData := String.mk (encodeB64 resource.data)
  match cp.marshalErr with
  | some e =>
      OnError cp ctx (some rr)
        (some (FrameworkError.updatingRequest key
          ("error serializing resource request patch: " ++ e)))
  | none =>
    let patch : StatusDataPatch :=
      { annotationList := resource.annotationList, data := encodedData }
    match cp.patchErr with
    | some e =>
        OnError cp ctx (some rr) (some (FrameworkError.updatingRequest key e))
    | none => (none, [Op.patchStatus ctx rr.ns rr.name patch])

/-! ## resolve and Reconcile -/

/-- The cause a done context reports; Go contexts report
context.DeadlineExceeded or context.Canceled. -/
inductive CtxCause where
  | deadlineExceeded
  | canceled
deriving DecidableEq

/-- The error value held by a context cancellation cause. -/
def ctxCauseErr : CtxCause → FrameworkError
  | CtxCause.deadlineExceeded => FrameworkError.deadlineExceeded
  | CtxCause.canceled => FrameworkError.canceled

/-- Which arm of the select in resolve fires, with the value it
receives: an error from errChan, the resolution context being done
(carrying resolutionCtx.Err(), nil modelled as `none`), or a resource
from resourceChan. -/
inductive SelectArm where
  | errChan (e : Option FrameworkError)
  | ctxDone (cause : Option CtxCause)
  | resourceChan (res : ResolvedResource)
deriving DecidableEq

/-- Embeds the defaultMaximumResolutionDuration constant
(30 * time.Second), in nanoseconds as Go durations are. -/
def defaultMaximumResolutionDuration : Nat := 30 * 1000000000

/-- Embeds Reconciler.resolve (reconciler.go lines 95-140) for a given
select outcome. The worker runs on the inner resolution context; every
post-decision call (OnError, writeResolvedData) receives the retained
outer context. A nil value received on errChan, or a done resolution
context with nil Err(), falls through to the plain retryable unknown
error. -/
def resolveFn (cp : ControlPlane) (resolver : Resolver) (key : String)
    (rr : ResolutionRequest) (arm : SelectArm) : Option GoError × List Op :=
  match arm with
  | SelectArm.errChan e =>
    match e with
    | some err =>
        let r := OnError cp CtxKind.outer (some rr) (some err)
        (r.1, (workerRun resolver key rr.parameters).2 ++ r.2)
    | none =>
        (some (GoError.plain (FrameworkError.unknown "unknown error")),
         (workerRun resolver key rr.parameters).2)
  | SelectArm.ctxDone cause =>
    match cause with
    | some c =>
        OnError cp CtxKind.outer (some rr) (some (ctxCauseErr c))
    | none =>
        (some (GoError.plain (FrameworkError.unknown "unknown error")), [])
  | SelectArm.resourceChan res =>
      let r := writeResolvedData cp CtxKind.outer rr res
      (r.1, (workerRun resolver key rr.parameters).2 ++ r.2)

/-- Which select outcomes are possible for a given resolver and
request: errChan and resourceChan deliver exactly what the worker
sends, and a done Go context always reports a non-nil Err() (context
package guarantee). -/
def armPossible (resolver : Resolver) (key : String)
    (params : List (String × String)) : SelectArm → Prop
  | SelectArm.errChan e => (workerRun resolver key params).1 = ChanMsg.onErrChan e
  | SelectArm.ctxDone cause => cause ≠ none
  | SelectArm.resourceChan res => (workerRun resolver key params).1 = ChanMsg.onResourceChan res

/-- Splits a character list at every slash, the semantics of Go
strings.Split(key, "/"). -/
def splitSlash : List Char → List (List Char)
  | [] => [[]]
  | c :: rest =>
    match splitSlash rest with
    | [] => if c = '/' then [[], []] else [[c]]
    | h :: t => if c = '/' then [] :: h :: t else (c :: h) :: t

/-- Embeds the semantics of the k8s helper cache.SplitMetaNamespaceKey
used by Reconcile: a key is either "name" or "namespace/name"; any
other shape is an error. -/
def splitMetaNamespaceKey (key : String) : Except String (String × String) :=
  match (splitSlash key.toList).map String.mk with
  | [name] => Except.ok ("", name)
  | [ns, name] => Except.ok (ns, name)
  | _ => Except.error ("unexpected key format: " ++ key)

/-- Embeds Reconciler.Reconcile (reconciler.go lines 71-93): split the
key (permanent ErrorInvalidResourceKey on failure), fetch via the
lister (permanent ErrorGettingResource with resolver name
"resolutionrequest" on failure), return nil when the record is done,
otherwise enter resolve. -/
def Reconcile (cp : ControlPlane) (resolver : Resolver) (key : String)
    (arm : SelectArm) : Option GoError × List Op :=
  match splitMetaNamespaceKey key with
  | Except.error e =>
      (some (GoError.permanent (some (FrameworkError.invalidResourceKey key e))), [])
  | Except.ok (ns, name) =>
    match cp.listerGet ns name with
    | Except.error e =>
        (some (GoError.permanent (some
          (FrameworkError.gettingResource "resolutionrequest" key e))),
         [Op.listerGet ns name])
    | Except.ok rr =>
      if rr.IsDone then
        (none, [Op.listerGet ns name])
      else
        let r := resolveFn cp resolver key rr arm
        (r.1, Op.listerGet ns name :: r.2)

/-! ## Concrete fixtures, used to instantiate the theorems below -/

/-- A pending request: no Succeeded condition yet. -/
def rrPending : ResolutionRequest :=
  { ns := "ns1", name := "req1", parameters := [("path", "a/b")],
    status := { conditions := [], data := "", annotationList := [] } }

/-- A finished request: Succeeded condition present with status True. -/
def rrDone : ResolutionRequest :=
  { ns := "ns1", name := "req1", parameters := [],
    status :=
      { conditions := [⟨"Succeeded", CondStatus.ctrue, "", ""⟩],
        data := "", annotationList := [] } }

/-- A control plane where every call succeeds and lookups return the
pending request. -/
def cpBase : ControlPlane :=
  { listerGet := fun _ _ => Except.ok rrPending,
    clientGet := fun _ _ => Except.ok rrPending,
    updateStatusErr := none, marshalErr := none, patchErr := none }

/-- A control plane whose lookups return the finished request. -/
def cpDone : ControlPlane :=
  { cpBase with
    listerGet := fun _ _ => Except.ok rrDone,
    clientGet := fun _ _ => Except.ok rrDone }

/-- A control plane whose lister fetch fails. -/
def cpListerErr : ControlPlane :=
  { cpBase with listerGet := fun _ _ => Except.error "not found" }

/-- A control plane whose status PATCH fails. -/
def cpPatchErr : ControlPlane :=
  { cpBase with patchErr := some "patch failed" }

/-- A small resolved artifact: the bytes of "hello" and one
annotation entry. -/
def resHello : ResolvedResource :=
  { data := [104, 101, 108, 108, 111],
    annotationList := [("content-type", "text/plain")] }

/-- A resolver requiring a non-empty parameter map and returning the
hello artifact. -/
def sampleResolver : Resolver :=
  { name := "git",
    validateParams := fun params => if params.isEmpty then some "missing path" else none,
    resolve := fun _ => Except.ok resHello }

/-! ## Base64 lemmas -/

theorem b64Value_b64Char : ∀ n < 64, b64Value (b64Char n) = some n := by decide

theorem b64Char_ne_eq : ∀ n < 64, b64Char n ≠ '=' := by decide

theorem decodeB64_encodeB64 :
    ∀ bs : List Nat, (∀ b ∈ bs, b < 256) → decodeB64 (encodeB64 bs) = some bs := by
  intro bs
  induction bs using encodeB64.induct with
  | case1 b0 b1 b2 rest ih =>
    intro h
    have hb0 : b0 < 256 := h b0 (by simp)
    have hb1 : b1 < 256 := h b1 (by simp)
    have hb2 : b2 < 256 := h b2 (by simp)
    have h0 : b0 / 4 < 64 := by omega
    have h1 : (b0 % 4) * 16 + b1 / 16 < 64 := by omega
    have h2 : (b1 % 16) * 4 + b2 / 64 < 64 := by omega
    have h3 : b2 % 64 < 64 := by omega
    have ihr : decodeB64 (encodeB64 rest) = some rest := by
      apply ih
      intro b hb
      exact h b (by simp [hb])
    simp [encodeB64, decodeB64, b64Value_b64Char _ h0, b64Value_b64Char _ h1,
      b64Value_b64Char _ h2, b64Value_b64Char _ h3,
      b64Char_ne_eq _ h2, b64Char_ne_eq _ h3, ihr]
    refine ⟨by omega, by omega, by omega⟩
  | case2 b0 b1 =>
    intro h
    have hb0 : b0 < 256 := h b0 (by simp)
    have hb1 : b1 < 256 := h b1 (by simp)
    have h0 : b0 / 4 < 64 := by omega
    have h1 : (b0 % 4) * 16 + b1 / 16 < 64 := by omega
    have h2 : (b1 % 16) * 4 < 64 := by omega
    simp [encodeB64, decodeB64, b64Value_b64Char _ h0, b64Value_b64Char _ h1,
      b64Value_b64Char _ h2, b64Char_ne_eq _ h2]
    refine ⟨by omega, by omega⟩
  | case3 b0 =>
    intro h
    have hb0 : b0 < 256 := h b0 (by simp)
    have h0 : b0 / 4 < 64 := by omega
    have h1 : (b0 % 4) * 16 < 64 := by omega
    simp [encodeB64, decodeB64, b64Value_b64Char _ h0, b64Value_b64Char _ h1]
    omega
  | case4 => intro _; rfl

/-! ## Helper lemmas about MarkFailed and writeResolvedData -/

theorem markFailed_ops_rpcCtx (cp : ControlPlane) (ctx : CtxKind)
    (rr : ResolutionRequest) (e : FrameworkError) :
    ∀ op ∈ (MarkFailed cp ctx rr e).2, op.rpcCtx = some ctx := by
  unfold MarkFailed
  cases hget : cp.clientGet rr.ns rr.name with
  | error m => simp [Op.rpcCtx]
  | ok latest =>
    by_cases hd : latest.IsDone
    · simp [hd, Op.rpcCtx]
    · cases hupd : cp.updateStatusErr with
      | some m => simp [hd, hupd, Op.rpcCtx]
      | none => simp [hd, hupd, Op.rpcCtx]

theorem writeResolvedData_never_plain (cp : ControlPlane) (ctx : CtxKind)
    (rr : ResolutionRequest) (resource : ResolvedResource) :
    ∀ m, (writeResolvedData cp ctx rr resource).1 ≠ some (GoError.plain m) := by
  intro m
  unfold writeResolvedData
  cases cp.marshalErr with
  | some e => simp [OnError]
  | none =>
    cases cp.patchErr with
    | some e => simp [OnError]
    | none => simp

/-! ## Claim theorems -/

/-- C1: on every successful reconcile, writeResolvedData patches
status.data with the strict standard-alphabet base64 encoding of
exactly the bytes the resolver returned and status.annotations with
exactly the annotation map of the resolver, so decoding status.data is
the identity on the resolver byte output; an empty artifact yields an
empty data string with an empty annotation map, and the payload bytes
are never mutated. -/
theorem writeResolvedData_encodes_exactly (cp : ControlPlane) (ctx : CtxKind)
    (rr : ResolutionRequest) (resource : ResolvedResource)
    (hm : cp.marshalErr = none) (hp : cp.patchErr = none)
    (hbytes : ∀ b ∈ resource.data, b < 256) :
    writeResolvedData cp ctx rr resource =
      (none, [Op.patchStatus ctx rr.ns rr.name
        { annotationList := resource.annotationList,
          data := String.mk (encodeB64 resource.data) }]) ∧
    decodeB64 (String.mk (encodeB64 resource.data)).toList = some resource.data ∧
    (resource.data = [] → String.mk (encodeB64 resource.data) = "" ∧
      resource.annotationList = resource.annotationList) := by
  refine ⟨?_, ?_, ?_⟩
  · unfold writeResolvedData
    rw [hm, hp]
  · show decodeB64 (encodeB64 resource.data) = some resource.data
    exact decodeB64_encodeB64 resource.data hbytes
  · intro hempty
    rw [hempty]
    exact ⟨rfl, rfl⟩

/-- C1 witness: concrete evaluation on the "hello" artifact. -/
theorem writeResolvedData_encodes_exactly_witness :
    writeResolvedData cpBase CtxKind.outer rrPending resHello =
      (none, [Op.patchStatus CtxKind.outer "ns1" "req1"
        { annotationList := [("content-type", "text/plain")], data := "aGVsbG8=" }]) ∧
    decodeB64 "aGVsbG8=".toList = some [104, 101, 108, 108, 111] := by
  have h := writeResolvedData_encodes_exactly cpBase CtxKind.outer rrPending resHello
    rfl rfl (by decide)
  exact ⟨h.1.trans (by decide), by decide⟩

/-- C2: every MarkFailed call re-fetches the record from the control
plane first; if the re-fetched record is done, MarkFailed returns nil
without issuing any status update, so no failure write succeeds on a
done record. -/
theorem markFailed_refetch_done_skips (cp : ControlPlane) (ctx : CtxKind)
    (rr : ResolutionRequest) (e : FrameworkError) :
    (MarkFailed cp ctx rr e).2.head? = some (Op.clientGet ctx rr.ns rr.name) ∧
    (∀ latest, cp.clientGet rr.ns rr.name = Except.ok latest → latest.IsDone = true →
      MarkFailed cp ctx rr e = (none, [Op.clientGet ctx rr.ns rr.name])) := by
  constructor
  · unfold MarkFailed
    cases hget : cp.clientGet rr.ns rr.name with
    | error m => rfl
    | ok latest =>
      by_cases hd : latest.IsDone
      · simp [hd]
      · cases hupd : cp.updateStatusErr with
        | some m => simp [hd, hupd]
        | none => simp [hd, hupd]
  · intro latest hget hdone
    unfold MarkFailed
    rw [hget]
    simp [hdone]

/-- C2 witness: concrete evaluation against a done record. -/
theorem markFailed_refetch_done_skips_witness :
    MarkFailed cpDone CtxKind.outer rrPending (FrameworkError.unknown "boom") =
      (none, [Op.clientGet CtxKind.outer "ns1" "req1"]) :=
  (markFailed_refetch_done_skips cpDone CtxKind.outer rrPending
    (FrameworkError.unknown "boom")).2 rrDone rfl (by decide)

/-- C3: a reconcile whose key parses and whose looked-up request is
done returns nil immediately, with no control-plane write and no
resolver invocation. -/
theorem reconcile_done_short_circuit (cp : ControlPlane) (resolver : Resolver)
    (key : String) (arm : SelectArm) (ns nm : String) (rr : ResolutionRequest)
    (hsplit : splitMetaNamespaceKey key = Except.ok (ns, nm))
    (hget : cp.listerGet ns nm = Except.ok rr)
    (hdone : rr.IsDone = true) :
    Reconcile cp resolver key arm = (none, [Op.listerGet ns nm]) ∧
    ∀ op ∈ (Reconcile cp resolver key arm).2,
      op.isWrite = false ∧ op.isResolverCall = false := by
  have hrec : Reconcile cp resolver key arm = (none, [Op.listerGet ns nm]) := by
    unfold Reconcile
    rw [hsplit]
    simp [hget, hdone]
  refine ⟨hrec, ?_⟩
  rw [hrec]
  intro op hop
  simp only [List.mem_singleton] at hop
  subst hop
  exact ⟨rfl, rfl⟩

/-- C3 witness: concrete evaluation on the key of a done record. -/
theorem reconcile_done_short_circuit_witness :
    Reconcile cpDone sampleResolver "ns1/req1"
        (SelectArm.ctxDone (some CtxCause.canceled)) =
      (none, [Op.listerGet "ns1" "req1"]) :=
  (reconcile_done_short_circuit cpDone sampleResolver "ns1/req1"
    (SelectArm.ctxDone (some CtxCause.canceled)) "ns1" "req1" rrDone
    rfl rfl (by decide)).1

/-- C4 counterexample: with rr nil and err nil, OnError returns a
permanent wrapper (around the nil error), not nil, because the rr nil
check precedes the err nil check; the claim states that a nil err
always yields a nil return. -/
theorem onError_nil_nil_counterexample :
    (OnError cpBase CtxKind.outer none none).1 = some (GoError.permanent none) ∧
    (OnError cpBase CtxKind.outer none none).1 ≠ none := ⟨rfl, by decide⟩

/-- C4 amended: OnError with non-nil err and non-nil rr attempts
MarkFailed, discards its return value and returns a permanent wrapper
around err; with rr nil it returns a permanent wrapper (around err,
which may be nil) and attempts no write; with err nil and rr non-nil
it returns nil and attempts no write. -/
theorem onError_contract (cp : ControlPlane) (ctx : CtxKind) :
    (∀ rr e, OnError cp ctx (some rr) (some e) =
      (some (GoError.permanent (some e)), (MarkFailed cp ctx rr e).2)) ∧
    (∀ e, OnError cp ctx none e = (some (GoError.permanent e), [])) ∧
    (∀ rr, OnError cp ctx (some rr) none = (none, [])) :=
  ⟨fun _ _ => rfl, fun _ => rfl, fun _ => rfl⟩

/-- C4 witness: concrete evaluation of the three OnError branches. -/
theorem onError_contract_witness :
    OnError cpDone CtxKind.outer (some rrPending) (some (FrameworkError.unknown "boom")) =
      (some (GoError.permanent (some (FrameworkError.unknown "boom"))),
       [Op.clientGet CtxKind.outer "ns1" "req1"]) ∧
    OnError cpBase CtxKind.outer none none = (some (GoError.permanent none), []) ∧
    OnError cpBase CtxKind.outer (some rrPending) none = (none, []) := by
  have h1 := (onError_contract cpDone CtxKind.outer).1 rrPending (FrameworkError.unknown "boom")
  have h2 := (onError_contract cpBase CtxKind.outer).2.1 none
  have h3 := (onError_contract cpBase CtxKind.outer).2.2 rrPending
  exact ⟨h1.trans (by decide), h2, h3⟩

/-- C5: the resolution deadline constant is 30 seconds; whenever the
inner resolution context is done before a worker result arrives, the
reconciler routes the cancellation cause (DeadlineExceeded or
Canceled) through OnError on the retained outer context, so every
control-plane RPC of the failure-marking path is issued on the outer
context, which a resolution timeout does not cancel. -/
theorem resolve_ctxDone_uses_outer (cp : ControlPlane) (resolver : Resolver)
    (key : String) (rr : ResolutionRequest) (cause : CtxCause) :
    defaultMaximumResolutionDuration = 30 * 1000000000 ∧
    resolveFn cp resolver key rr (SelectArm.ctxDone (some cause)) =
      OnError cp CtxKind.outer (some rr) (some (ctxCauseErr cause)) ∧
    (ctxCauseErr cause = FrameworkError.deadlineExceeded ∨
      ctxCauseErr cause = FrameworkError.canceled) ∧
    (∀ op ∈ (resolveFn cp resolver key rr (SelectArm.ctxDone (some cause))).2,
      op.rpcCtx = some CtxKind.outer) := by
  refine ⟨rfl, rfl, ?_, ?_⟩
  · cases cause
    · exact Or.inl rfl
    · exact Or.inr rfl
  · intro op hop
    have : op ∈ (MarkFailed cp CtxKind.outer rr (ctxCauseErr cause)).2 := hop
    exact markFailed_ops_rpcCtx cp CtxKind.outer rr (ctxCauseErr cause) op this

/-- C5 witness: concrete evaluation of the deadline arm. -/
theorem resolve_ctxDone_uses_outer_witness :
    resolveFn cpBase sampleResolver "ns1/req1" rrPending
        (SelectArm.ctxDone (some CtxCause.deadlineExceeded)) =
      OnError cpBase CtxKind.outer (some rrPending)
        (some FrameworkError.deadlineExceeded) ∧
    Op.rpcCtx (Op.clientGet CtxKind.outer "ns1" "req1") = some CtxKind.outer := by
  have h := resolve_ctxDone_uses_outer cpBase sampleResolver "ns1/req1" rrPending
    CtxCause.deadlineExceeded
  exact ⟨h.2.1, h.2.2.2 (Op.clientGet CtxKind.outer "ns1" "req1") (by decide)⟩

/-- C6: when MarkFailed reaches the write step (re-fetch succeeded and
the record is not done), the Succeeded condition is set to False with
the reason computed by ReasonError (always in the taxonomy set,
falling through to ResolutionFailed) and the message of the possibly
normalized error, issued as one update on the status subresource; any
re-fetch or update error is returned to the caller. -/
theorem markFailed_write_step (cp : ControlPlane) (ctx : CtxKind)
    (rr : ResolutionRequest) (e : FrameworkError) :
    (∀ latest, cp.clientGet rr.ns rr.name = Except.ok latest → latest.IsDone = false →
      (MarkFailed cp ctx rr e).2 =
        [Op.clientGet ctx rr.ns rr.name,
         Op.updateStatus ctx rr.ns rr.name
           { ctype := "Succeeded", status := CondStatus.cfalse,
             reason := (ReasonError e).1, message := errString (ReasonError e).2 }] ∧
      (MarkFailed cp ctx rr e).1 = Option.map FrameworkError.external cp.updateStatusErr) ∧
    (ReasonError e).1 ∈ taxonomyReasons ∧
    (∀ m, cp.clientGet rr.ns rr.name = Except.error m →
      (MarkFailed cp ctx rr e).1 = some (FrameworkError.external m)) := by
  refine ⟨?_, ?_, ?_⟩
  · intro latest hget hnd
    unfold MarkFailed
    rw [hget]
    cases hupd : cp.updateStatusErr with
    | some m => simp [hnd, hupd]
    | none => simp [hnd, hupd]
  · cases e <;> simp [ReasonError, taxonomyReasons]
  · intro m hget
    unfold MarkFailed
    rw [hget]

/-- C6 witness: concrete evaluation of the write step on a pending
record with an upstream resolution error. -/
theorem markFailed_write_step_witness :
    (MarkFailed cpBase CtxKind.outer rrPending
        (FrameworkError.gettingResource "git" "ns1/req1" "clone failed")).2 =
      [Op.clientGet CtxKind.outer "ns1" "req1",
       Op.updateStatus CtxKind.outer "ns1" "req1"
         { ctype := "Succeeded", status := CondStatus.cfalse,
           reason := "ResolutionFailed",
           message := "error getting git resource for ns1/req1: clone failed" }] ∧
    (MarkFailed cpBase CtxKind.outer rrPending
        (FrameworkError.gettingResource "git" "ns1/req1" "clone failed")).1 = none := by
  have h := (markFailed_write_step cpBase CtxKind.outer rrPending
    (FrameworkError.gettingResource "git" "ns1/req1" "clone failed")).1
    rrPending rfl (by decide)
  exact ⟨h.1.trans (by decide), h.2⟩

/-- C7: the worker calls ValidateParams first; on a validation error it
sends an InvalidRequest error carrying the request key and the
validation message and never calls Resolve; only when validation
passes does it call Resolve, sending a GettingResource error carrying
the resolver name on failure or the artifact on success. -/
theorem worker_validate_then_resolve (resolver : Resolver) (key : String)
    (params : List (String × String)) :
    (∀ msg, resolver.validateParams params = some msg →
      workerRun resolver key params =
        (ChanMsg.onErrChan (some (FrameworkError.invalidRequest key msg)),
         [Op.validateParamsCall params])) ∧
    (Op.resolveCall params ∈ (workerRun resolver key params).2 →
      resolver.validateParams params = none) ∧
    (resolver.validateParams params = none →
      (∀ e, resolver.resolve params = Except.error e →
        (workerRun resolver key params).1 =
          ChanMsg.onErrChan
            (some (FrameworkError.gettingResource resolver.name key e))) ∧
      (∀ res, resolver.resolve params = Except.ok res →
        (workerRun resolver key params).1 = ChanMsg.onResourceChan res)) := by
  refine ⟨?_, ?_, ?_⟩
  · intro msg hval
    unfold workerRun
    rw [hval]
  · intro hmem
    cases hval : resolver.validateParams params with
    | none => rfl
    | some msg =>
      exfalso
      unfold workerRun at hmem
      rw [hval] at hmem
      simp at hmem
  · intro hval
    constructor
    · intro e hres
      unfold workerRun
      rw [hval, hres]
    · intro res hres
      unfold workerRun
      rw [hval, hres]

/-- C7 witness: validation failure on the empty parameter map sends
InvalidRequest without calling Resolve. -/
theorem worker_validate_then_resolve_witness :
    workerRun sampleResolver "ns1/req1" [] =
      (ChanMsg.onErrChan
        (some (FrameworkError.invalidRequest "ns1/req1" "missing path")),
       [Op.validateParamsCall []]) :=
  (worker_validate_then_resolve sampleResolver "ns1/req1" []).1 "missing path" rfl

/-- C8: an unparseable key yields a permanent invalid-key error with no
lookup and no status write; a lister fetch error on the initial lookup
yields a permanent fetch error with no status write attempted. -/
theorem reconcile_error_paths (cp : ControlPlane) (resolver : Resolver)
    (key : String) (arm : SelectArm) :
    (∀ e, splitMetaNamespaceKey key = Except.error e →
      Reconcile cp resolver key arm =
        (some (GoError.permanent (some (FrameworkError.invalidResourceKey key e))),
         [])) ∧
    (∀ ns nm e, splitMetaNamespaceKey key = Except.ok (ns, nm) →
      cp.listerGet ns nm = Except.error e →
      Reconcile cp resolver key arm =
        (some (GoError.permanent (some
          (FrameworkError.gettingResource "resolutionrequest" key e))),
         [Op.listerGet ns nm])) := by
  constructor
  · intro e hsplit
    unfold Reconcile
    rw [hsplit]
  · intro ns nm e hsplit hget
    unfold Reconcile
    rw [hsplit]
    simp [hget]

/-- C8 witness: the key "a/b/c" is rejected as permanent invalid-key
with an empty trace, and a failing lister yields the permanent fetch
error with no write. -/
theorem reconcile_error_paths_witness :
    Reconcile cpBase sampleResolver "a/b/c"
        (SelectArm.ctxDone (some CtxCause.canceled)) =
      (some (GoError.permanent (some (FrameworkError.invalidResourceKey "a/b/c"
        "unexpected key format: a/b/c"))), []) ∧
    Reconcile cpListerErr sampleResolver "ns1/req1"
        (SelectArm.ctxDone (some CtxCause.canceled)) =
      (some (GoError.permanent (some
        (FrameworkError.gettingResource "resolutionrequest" "ns1/req1" "not found"))),
       [Op.listerGet "ns1" "req1"]) := by
  constructor
  · exact (reconcile_error_paths cpBase sampleResolver "a/b/c"
      (SelectArm.ctxDone (some CtxCause.canceled))).1 "unexpected key format: a/b/c" rfl
  · exact (reconcile_error_paths cpListerErr sampleResolver "ns1/req1"
      (SelectArm.ctxDone (some CtxCause.canceled))).2 "ns1" "req1" "not found" rfl rfl

/-- C9: a json-marshal error or a PATCH error in writeResolvedData is
routed through OnError as an UpdatingRequest error (so MarkFailed runs
and a permanent error goes back to the queue), and a successful patch
returns nil. -/
theorem writeResolvedData_error_routing (cp : ControlPlane) (ctx : CtxKind)
    (rr : ResolutionRequest) (resource : ResolvedResource) :
    (∀ m, cp.marshalErr = some m →
      writeResolvedData cp ctx rr resource =
        OnError cp ctx (some rr)
          (some (FrameworkError.updatingRequest (rr.ns ++ "/" ++ rr.name)
            ("error serializing resource request patch: " ++ m))) ∧
      (writeResolvedData cp ctx rr resource).1 =
        some (GoError.permanent (some
          (FrameworkError.updatingRequest (rr.ns ++ "/" ++ rr.name)
            ("error serializing resource request patch: " ++ m))))) ∧
    (cp.marshalErr = none → ∀ m, cp.patchErr = some m →
      writeResolvedData cp ctx rr resource =
        OnError cp ctx (some rr)
          (some (FrameworkError.updatingRequest (rr.ns ++ "/" ++ rr.name) m)) ∧
      (writeResolvedData cp ctx rr resource).1 =
        some (GoError.permanent (some
          (FrameworkError.updatingRequest (rr.ns ++ "/" ++ rr.name) m)))) ∧
    (cp.marshalErr = none → cp.patchErr = none →
      (writeResolvedData cp ctx rr resource).1 = none) := by
  refine ⟨?_, ?_, ?_⟩
  · intro m hm
    have heq : writeResolvedData cp ctx rr resource =
        OnError cp ctx (some rr)
          (some (FrameworkError.updatingRequest (rr.ns ++ "/" ++ rr.name)
            ("error serializing resource request patch: " ++ m))) := by
      unfold writeResolvedData
      rw [hm]
    exact ⟨heq, by rw [heq]; rfl⟩
  · intro hm m hp
    have heq : writeResolvedData cp ctx rr resource =
        OnError cp ctx (some rr)
          (some (FrameworkError.updatingRequest (rr.ns ++ "/" ++ rr.name) m)) := by
      unfold writeResolvedData
      rw [hm, hp]
    exact ⟨heq, by rw [heq]; rfl⟩
  · intro hm hp
    unfold writeResolvedData
    rw [hm, hp]

/-- C9 witness: a failing PATCH routes through OnError as
UpdatingRequest, marking the pending record failed permanently. -/
theorem writeResolvedData_error_routing_witness :
    writeResolvedData cpPatchErr CtxKind.outer rrPending resHello =
      OnError cpPatchErr CtxKind.outer (some rrPending)
        (some (FrameworkError.updatingRequest "ns1/req1" "patch failed")) ∧
    (writeResolvedData cpPatchErr CtxKind.outer rrPending resHello).1 =
      some (GoError.permanent (some
        (FrameworkError.updatingRequest "ns1/req1" "patch failed"))) := by
  have h := (writeResolvedData_error_routing cpPatchErr CtxKind.outer rrPending
    resHello).2.1 rfl "patch failed" rfl
  exact ⟨h.1, h.2⟩

/-- C10: the fallback branch returning the plain retryable unknown
error is unreachable under correct operation: the worker only ever
sends non-nil errors on errChan, a done resolution context carries a
non-nil cause, and every possible select outcome therefore produces a
decision, never the plain fallback error. -/
theorem resolve_fallback_unreachable (cp : ControlPlane) (resolver : Resolver)
    (key : String) (rr : ResolutionRequest) (arm : SelectArm)
    (h : armPossible resolver key rr.parameters arm) :
    (∀ e, (workerRun resolver key rr.parameters).1 = ChanMsg.onErrChan e →
      e ≠ none) ∧
    (∀ m, (resolveFn cp resolver key rr arm).1 ≠ some (GoError.plain m)) := by
  have hworker : ∀ e, (workerRun resolver key rr.parameters).1 = ChanMsg.onErrChan e →
      e ≠ none := by
    intro e hsent
    unfold workerRun at hsent
    cases hval : resolver.validateParams rr.parameters with
    | some msg =>
      rw [hval] at hsent
      simp at hsent
      simp [← hsent]
    | none =>
      rw [hval] at hsent
      cases hres : resolver.resolve rr.parameters with
      | error er =>
        rw [hres] at hsent
        simp at hsent
        simp [← hsent]
      | ok res =>
        rw [hres] at hsent
        simp at hsent
  refine ⟨hworker, ?_⟩
  intro m
  cases arm with
  | errChan e =>
    have hne : e ≠ none := hworker e h
    cases e with
    | none => exact absurd rfl hne
    | some err => simp [resolveFn, OnError]
  | ctxDone cause =>
    cases cause with
    | none => exact absurd rfl h
    | some c => simp [resolveFn, OnError]
  | resourceChan res =>
    show ((writeResolvedData cp CtxKind.outer rr res).1,
      (workerRun resolver key rr.parameters).2 ++
        (writeResolvedData cp CtxKind.outer rr res).2).1 ≠ some (GoError.plain m)
    exact writeResolvedData_never_plain cp CtxKind.outer rr res m

/-- C10 witness: concrete evaluation at a done resolution context with
a deadline cause. -/
theorem resolve_fallback_unreachable_witness :
    (resolveFn cpBase sampleResolver "ns1/req1" rrPending
        (SelectArm.ctxDone (some CtxCause.deadlineExceeded))).1 ≠
      some (GoError.plain (FrameworkError.unknown "unknown error")) :=
  (resolve_fallback_unreachable cpBase sampleResolver "ns1/req1" rrPending
    (SelectArm.ctxDone (some CtxCause.deadlineExceeded))
    (by simp [armPossible])).2 (FrameworkError.unknown "unknown error")

end Resolution
